import Mathlib

/-!
Shallow embedding of the raycast-monitor-input-switcher extension
(TypeScript sources under `src/`), used to check the natural-language
specification against the code.

Modelling conventions:
* `execSync` and the other effectful host calls are modelled by explicit
  environment parameters (`HostEnv`, an `exec : String → ExecOutcome`
  oracle, an `existsSync : String → Bool` oracle).  A thrown JavaScript
  exception (non-zero exit, spawn failure, timeout) is `ExecOutcome.err`
  carrying the error message text; a status-0 exit is `ExecOutcome.ok`
  carrying stdout.
* JavaScript strings are Lean `String`s; substring tests
  (`String.prototype.includes`) and `parseInt` are re-implemented below on
  `List Char` so that everything evaluates by `decide`/`rfl`.
* `NaN` results of `parseInt` are modelled by `Option Int` (`none` = NaN).
-/

namespace MIS

/-- Boolean test that `n` is a prefix of the second list (character-exact).
Used to model `String.prototype.includes`. -/
def startsWithL : List Char → List Char → Bool
  | [], _ => true
  | _ :: _, [] => false
  | a :: as, b :: bs => a == b && startsWithL as bs

/-- Boolean substring containment on character lists, scanning left to
right; models `String.prototype.includes`. -/
def containsL (needle : List Char) : List Char → Bool
  | [] => startsWithL needle []
  | b :: bs => startsWithL needle (b :: bs) || containsL needle bs

/-- Substring containment on strings; models `hay.includes(needle)`. -/
def strContains (needle hay : String) : Bool :=
  containsL needle.toList hay.toList

/-- Lower-casing of a character list; models `toLowerCase()` on the ASCII
strings this code handles. -/
def lowerL (l : List Char) : List Char := l.map Char.toLower

/-- Whitespace trim on a character list; models `String.prototype.trim`
for the ASCII strings this code handles. -/
def trimL (l : List Char) : List Char :=
  ((l.dropWhile Char.isWhitespace).reverse.dropWhile Char.isWhitespace).reverse

/-- Numeric value of a run of decimal digits. -/
def digitsToNat (l : List Char) : Nat :=
  l.foldl (fun acc c => 10 * acc + (c.toNat - 48)) 0

/-- Model of JavaScript `parseInt(s, 10)`: skip leading whitespace, accept
an optional sign, read the leading run of decimal digits, ignore trailing
text; `none` models the `NaN` result when no digit is read. -/
def jsParseInt (s : String) : Option Int :=
  let l := s.toList.dropWhile Char.isWhitespace
  let signAndRest : Int × List Char :=
    match l with
    | '-' :: cs => (-1, cs)
    | '+' :: cs => (1, cs)
    | _ => (1, l)
  let ds := signAndRest.2.takeWhile Char.isDigit
  if ds.isEmpty then none
  else some (signAndRest.1 * (digitsToNat ds : Int))

/-- Outcome of one `execSync` call: `ok stdout` for a status-0 exit,
`err message` for a thrown execution error (non-zero exit, spawn failure
or timeout), carrying the JavaScript `Error`'s message text. -/
inductive ExecOutcome
  | ok (stdout : String)
  | err (message : String)
deriving DecidableEq

/-- An `exec` oracle: what each external command line would produce. -/
def ExecEnv : Type := String → ExecOutcome

/-! ## src/lib/ddc.ts -/

/-- VCP code constant from `src/lib/ddc.ts` line 17 (`VCP_INPUT_SOURCE`).
The source sets it to the numeral `60`. -/
def VCP_INPUT_SOURCE : Nat := 60

/-- Result record of a switch attempt (`SwitchResult` in `src/lib/ddc.ts`). -/
structure SwitchResult where
  success : Bool
  message : String
  rawOutput : Option String
deriving DecidableEq

/-- The macOS command line built by `switchInputMacOS`:
`` `m1ddc set input ${inputValue}` ``. -/
def switchInputMacOSCommand (inputValue : Int) : String :=
  "m1ddc set input " ++ toString inputValue

/-- The Windows command line built by `switchInputWindows`:
`` `${quotedPath} /SetValue "${monitorId}" ${VCP_INPUT_SOURCE} ${inputValue}` ``
with `quotedPath` = `` `"${exePath}"` ``. -/
def switchInputWindowsCommand (exePath monitorId : String) (inputValue : Int) : String :=
  "\"" ++ exePath ++ "\"" ++ " /SetValue \"" ++ monitorId ++ "\" " ++
    toString VCP_INPUT_SOURCE ++ " " ++ toString inputValue

/-- `switchInputMacOS` from `src/lib/ddc.ts` (lines 75-108): run the m1ddc
command; on success report `Switched to input N` with trimmed stdout; on a
thrown error map known substrings of the error text to hints, otherwise
pass the raw error text through. -/
def switchInputMacOS (exec : ExecEnv) (inputValue : Int) : SwitchResult :=
  match exec (switchInputMacOSCommand inputValue) with
  | .ok output =>
      { success := true
        message := "Switched to input " ++ toString inputValue
        rawOutput := some (String.mk (trimL output.toList)) }
  | .err errorMessage =>
      if strContains "No displays found" errorMessage then
        { success := false
          message := "No DDC/CI compatible displays found. Is the monitor connected and awake?"
          rawOutput := none }
      else if strContains "DDC communication failed" errorMessage then
        { success := false
          message := "DDC/CI communication failed. Try a different cable or check monitor DDC settings."
          rawOutput := none }
      else
        { success := false
          message := "m1ddc error: " ++ errorMessage
          rawOutput := none }

/-- `switchInputWindows` from `src/lib/ddc.ts` (lines 114-139): run the
ControlMyMonitor command; on success report `Switched to input N`; on a
thrown error always pass the raw error text through with a
`ControlMyMonitor error:` prefix (no substring matching on this branch). -/
def switchInputWindows (exec : ExecEnv) (inputValue : Int)
    (exePath monitorId : String) : SwitchResult :=
  match exec (switchInputWindowsCommand exePath monitorId inputValue) with
  | .ok output =>
      { success := true
        message := "Switched to input " ++ toString inputValue
        rawOutput := some (String.mk (trimL output.toList)) }
  | .err errorMessage =>
      { success := false
        message := "ControlMyMonitor error: " ++ errorMessage
        rawOutput := none }

/-! ## src/lib/platform.ts

The repository carries two side-by-side versions of this module; the chip
detection and platform classification logic is identical in both (the
newer `PlatformInfo` merely adds an `isWin32` field), so one embedding
serves both.  The validation embedded here is the newer
`validateHostPlatform` (returning a `ToastResult`-shaped record); the
older `validatePrerequisites` variant of `platform.ts` additionally
checks tool installation but agrees on the chip-generation rules. -/

/-- Toast status union `"success" | "failure" | "soft-fail"` from
`src/lib/toast.ts`. -/
inductive Status
  | success
  | failure
  | softFail
deriving DecidableEq

/-- `ToastResult` record from `src/lib/toast.ts`. -/
structure ToastResult where
  status : Status
  title : String
  message : String
deriving DecidableEq

/-- `GenericSuccess` constant from `src/lib/toast.ts`. -/
def GenericSuccess : ToastResult :=
  { status := .success, title := "", message := "" }

/-- OS tag union `SupportedPlatform | "unsupported"` of `PlatformInfo.os`. -/
inductive OsTag
  | darwin
  | win32
  | unsupported
deriving DecidableEq

/-- Apple Silicon generation union `AppleSiliconGen` from
`src/lib/platform.ts`. -/
inductive AppleSiliconGen
  | m1
  | m2OrLater
  | intel
  | unknown
deriving DecidableEq

/-- `PlatformInfo` record from `src/lib/platform.ts` (newer version, with
`isWin32`). -/
structure PlatformInfo where
  os : OsTag
  isWin32 : Bool
  appleChipGen : AppleSiliconGen
  isAppleSilicon : Bool
  m1ddcSupportsBuiltinHdmi : Bool
deriving DecidableEq

/-- Host environment consulted by `detectPlatform`:
`osName` is the result of `os.platform()`; `sysctlBrand` is the outcome
of `` execSync("sysctl -n machdep.cpu.brand_string") `` — `some stdout`
on success, `none` when the call throws (failure or timeout). -/
structure HostEnv where
  osName : String
  sysctlBrand : Option String
deriving DecidableEq

/-- Scan for the first match of the regex `/Apple M(\d+)/i` and return the
numeric value of its digit capture: at each position, case-insensitively
match the literal `Apple M` and then require at least one decimal digit;
positions where `Apple M` matches but no digit follows do not match the
regex, and scanning continues (the needle below is pre-lowercased). -/
def matchAppleMNum : List Char → Option Nat
  | [] => none
  | b :: bs =>
    if startsWithL ("apple m".toList) (lowerL (b :: bs)) then
      let ds := ((b :: bs).drop 7).takeWhile Char.isDigit
      if ds.isEmpty then matchAppleMNum bs else some (digitsToNat ds)
    else matchAppleMNum bs

/-- Body of `detectAppleSiliconGeneration` applied to the trimmed
`brand_string` output (`src/lib/platform.ts` lines 66-94 and 243-273; both
copies implement the same parse):
`"intel"` substring (case-insensitive) → `intel`; first `/Apple M(\d+)/i`
match with captured number ≥ 2 → `m2_or_later`, else `m1`; `"apple"`
substring (case-insensitive) → `m2_or_later`; otherwise `unknown`. -/
def parseBrandString (brandString : String) : AppleSiliconGen :=
  if containsL ("intel".toList) (lowerL brandString.toList) then .intel
  else
    match matchAppleMNum brandString.toList with
    | some generation => if generation ≥ 2 then .m2OrLater else .m1
    | none =>
      if containsL ("apple".toList) (lowerL brandString.toList) then .m2OrLater
      else .unknown

/-- `detectAppleSiliconGeneration` from `src/lib/platform.ts`: run
`sysctl -n machdep.cpu.brand_string`, trim its output and parse it; the
`try/catch` that swallows a thrown invocation error (modelled by
`sysctlBrand = none`) yields `unknown`. -/
def detectAppleSiliconGeneration (env : HostEnv) : AppleSiliconGen :=
  match env.sysctlBrand with
  | none => .unknown
  | some raw => parseBrandString (String.mk (trimL raw.toList))

/-- `detectPlatform` from `src/lib/platform.ts` (newer copy, lines
204-236; the older copy lines 30-59 returns the same fields minus
`isWin32`). -/
def detectPlatform (env : HostEnv) : PlatformInfo :=
  if env.osName == "win32" then
    { os := .win32
      isWin32 := true
      appleChipGen := .unknown
      isAppleSilicon := false
      m1ddcSupportsBuiltinHdmi := false }
  else if env.osName == "darwin" then
    let chipGen := detectAppleSiliconGeneration env
    { os := .darwin
      isWin32 := false
      appleChipGen := chipGen
      isAppleSilicon := chipGen != .intel
      m1ddcSupportsBuiltinHdmi := chipGen == .m2OrLater }
  else
    { os := .unsupported
      isWin32 := false
      appleChipGen := .unknown
      isAppleSilicon := false
      m1ddcSupportsBuiltinHdmi := false }

/-- `PlatformValidation = PlatformInfo & ToastResult`: the spread-merge of
a `PlatformInfo` with toast fields. -/
structure PlatformValidation where
  info : PlatformInfo
  toast : ToastResult
deriving DecidableEq

/-- `validateHostPlatform` from `src/lib/platform.ts` (lines 280-326):
unsupported OS → failure; darwin+intel → failure; darwin+m1 → soft-fail
(non-blocking warning about the built-in HDMI port); any other darwin chip
generation → `GenericSuccess`; win32 → `GenericSuccess`. -/
def validateHostPlatform (env : HostEnv) : PlatformValidation :=
  let info := detectPlatform env
  if info.os == .unsupported then
    { info
      toast := { status := .failure
                 title := "This extension only supports macOS and Windows."
                 message := "" } }
  else if info.os == .darwin then
    if info.appleChipGen == .intel then
      { info
        toast := { status := .failure
                   title := "m1ddc requires Apple Silicon (M1 or later)"
                   message := "M1 is partially supported, Intel Macs are not supported." } }
    else if info.appleChipGen == .m1 then
      { info
        toast := { status := .softFail
                   title := "m1ddc does not support M1's built-in HDMI port!"
                   message := "External displays via USB-C/Thunderbolt adapters should work." } }
    else { info, toast := GenericSuccess }
  else if info.os == .win32 then
    { info, toast := GenericSuccess }
  else
    { info
      toast := { status := .failure
                 title := "Unknown platform error."
                 message := "" } }

/-! ## src/lib/extension.ts -/

/-- `Preferences` record from `src/lib/extension.ts`, as read from the
host preference store by `getPreferenceValues()`. -/
structure Preferences where
  displayPortValue : String
  hdmiPortValue : String
  m1ddcPath : String
  controlMyMonitorPath : String
  monitorId : String
deriving DecidableEq

/-- `PreferenceValidation = Preferences & ToastResult`. -/
structure PreferenceValidation where
  prefs : Preferences
  toast : ToastResult
deriving DecidableEq

/-- `validatePreferences` from `src/lib/extension.ts` (lines 15-66).
The numeric check of the two input-code strings runs inside
`Array.prototype.forEach`; the `return` statement inside the callback
returns from the callback only, and `forEach` discards callback results,
so that loop cannot affect the function's result — it is embedded as the
dead computation it is.  The remaining checks: blank tool path → failure;
`existsSync` false on the path → failure; otherwise `GenericSuccess`. -/
def validatePreferences (existsSync : String → Bool) (platform : PlatformInfo)
    (prefs : Preferences) : PreferenceValidation :=
  -- Source comment: "Fail if DisplayPort value or HDMI value are non numbers".
  -- The callback's early `return` is swallowed by `forEach`.
  let _deadNumericCheck :=
    [("HDMI port", prefs.hdmiPortValue), ("DisplayPort", prefs.displayPortValue)].map
      (fun deviceConfig => jsParseInt deviceConfig.2)
  let runnableName :=
    if platform.os == .darwin then "m1ddc" else "ControlMyMonitor.exe"
  let runnablePath :=
    if platform.os == .darwin then prefs.m1ddcPath else prefs.controlMyMonitorPath
  if runnablePath == "" || String.mk (trimL runnablePath.toList) == "" then
    { prefs
      toast := { status := .failure
                 title := runnableName ++ " path not configured"
                 message := "" } }
  else if !(existsSync runnablePath) then
    { prefs
      toast := { status := .failure
                 title := runnableName ++ " not found"
                 message := "Path: " ++ runnablePath } }
  else { prefs, toast := GenericSuccess }

/-! ## src/common.ts and the toggle-input-source command gate -/

/-- Result union of `validatePrerequisites` in `src/common.ts`: either the
bare `PlatformValidation` (platform stage failed) or the spread-merge
`{...platformValidation, ...validatePreferences(platformValidation)}`, in
which the later preference-validation fields overwrite the platform-stage
toast fields. -/
inductive PrereqResult
  | platformOnly (v : PlatformValidation)
  | merged (info : PlatformInfo) (prefs : Preferences) (toast : ToastResult)
deriving DecidableEq

/-- The toast status the caller observes on a `PrereqResult`. -/
def PrereqResult.status : PrereqResult → Status
  | .platformOnly v => v.toast.status
  | .merged _ _ toast => toast.status

/-- `validatePrerequisites` from `src/common.ts` (lines 6-18): run
`validateHostPlatform`; if its status is not `"failure"`, spread-merge it
with `validatePreferences(platformValidation)` — the merge keeps the
platform fields but takes every toast field (status, title, message) from
the preference validation; otherwise return the platform validation. -/
def validatePrerequisites (env : HostEnv) (existsSync : String → Bool)
    (prefs : Preferences) : PrereqResult :=
  let platformValidation := validateHostPlatform env
  if platformValidation.toast.status != .failure then
    let prefValidation := validatePreferences existsSync platformValidation.info prefs
    .merged platformValidation.info prefValidation.prefs prefValidation.toast
  else .platformOnly platformValidation

/-- Gate of `Command` in `src/toggle-input-source.tsx` (lines 15-24): the
command returns early (never calling `switchInput`) exactly when the
combined validation's status is `"failure"`; on any other status it goes
on to dispatch. -/
def toggleCommandRunsDispatch (env : HostEnv) (existsSync : String → Bool)
    (prefs : Preferences) : Bool :=
  (validatePrerequisites env existsSync prefs).status != .failure

/-! ## Discovery (src/lib/ddc.ts lines 146-268) -/

/-- `InputDiscovery` record from `src/lib/ddc.ts`. -/
structure InputDiscovery where
  success : Bool
  currentValue : Option Int
  availableInfo : Option String
  error : Option String
deriving DecidableEq

/-- Rendering of a JavaScript number interpolation where the number may be
`NaN` (`parseInt` failure). -/
def renderJsNumber : Option Int → String
  | some n => toString n
  | none => "NaN"

/-- The report text built by `discoverInputsMacOS` (the `[...].join("\n")`
block), parameterised by the parsed current value and the display-list
text (which is the placeholder string when `m1ddc display list` failed). -/
def macDiscoveryInfo (currentValue : Option Int) (displayInfo : String) : String :=
  String.intercalate "\n"
    [ "=== macOS DDC/CI Discovery (m1ddc) ==="
    , ""
    , "Current Input Value (VCP 0x60): " ++ renderJsNumber currentValue
    , ""
    , "Common Input Values:"
    , "  15 (0x0F) = DisplayPort"
    , "  17 (0x11) = HDMI-1"
    , "  18 (0x12) = HDMI-2"
    , "  (Values vary by monitor model)"
    , ""
    , "Detected Displays:"
    , displayInfo
    , ""
    , "Tip: Switch to each input manually and run this command to discover the value:"
    , "  m1ddc get input" ]

/-- `discoverInputsMacOS` from `src/lib/ddc.ts` (lines 171-212): run
`m1ddc get input` (failure here fails the whole report); parse its trimmed
output (`NaN` → `currentValue` omitted, not an error); run
`m1ddc display list` inside its own `try/catch`, degrading to the
placeholder `(Could not retrieve display list)` on failure. -/
def discoverInputsMacOS (exec : ExecEnv) : InputDiscovery :=
  match exec "m1ddc get input" with
  | .err errorMessage =>
      { success := false
        currentValue := none
        availableInfo := none
        error := some ("m1ddc error: " ++ errorMessage) }
  | .ok currentInput =>
      let currentValue := jsParseInt (String.mk (trimL currentInput.toList))
      let displayInfo :=
        match exec "m1ddc display list" with
        | .ok s => s
        | .err _ => "(Could not retrieve display list)"
      { success := true
        currentValue := currentValue
        availableInfo := some (macDiscoveryInfo currentValue displayInfo)
        error := none }

/-- The `/smonitors` command line built by `discoverInputsWindows`. -/
def smonitorsCommand (exePath : String) : String :=
  "\"" ++ exePath ++ "\"" ++ " /smonitors"

/-- The `/GetValue` command line built by `discoverInputsWindows`. -/
def getValueCommand (exePath monitorId : String) : String :=
  "\"" ++ exePath ++ "\"" ++ " /GetValue \"" ++ monitorId ++ "\" " ++
    toString VCP_INPUT_SOURCE

/-- The report text built by `discoverInputsWindows`, parameterised by the
(possibly absent) parsed current value and the `/smonitors` output. -/
def winDiscoveryInfo (currentValue : Option Int) (monitorInfo : String) : String :=
  String.intercalate "\n"
    [ "=== Windows DDC/CI Discovery (ControlMyMonitor) ==="
    , ""
    , match currentValue with
      | some v => "Current Input Value (VCP 0x60): " ++ toString v
      | none => "Current Input Value: (Could not read)"
    , ""
    , "Common Input Values:"
    , "  15 (0x0F) = DisplayPort"
    , "  17 (0x11) = HDMI-1"
    , "  18 (0x12) = HDMI-2"
    , "  (Values vary by monitor model)"
    , ""
    , "Detected Monitors:"
    , monitorInfo
    , ""
    , "Tip: Use the ControlMyMonitor GUI to explore all VCP values." ]

/-- `discoverInputsWindows` from `src/lib/ddc.ts` (lines 217-268): run
`/smonitors` (failure fails the whole report); then attempt `/GetValue`
inside its own `try/catch` — a thrown error there, or an unparseable
(`NaN`) value, merely leaves `currentValue` undefined. -/
def discoverInputsWindows (exec : ExecEnv) (exePath monitorId : String) : InputDiscovery :=
  match exec (smonitorsCommand exePath) with
  | .err errorMessage =>
      { success := false
        currentValue := none
        availableInfo := none
        error := some ("ControlMyMonitor error: " ++ errorMessage) }
  | .ok monitorInfo =>
      let currentValue :=
        match exec (getValueCommand exePath monitorId) with
        | .ok inputInfo => jsParseInt (String.mk (trimL inputInfo.toList))
        | .err _ => none
      { success := true
        currentValue := currentValue
        availableInfo := some (winDiscoveryInfo currentValue monitorInfo)
        error := none }

/-! ## Spec-side definitions (for the refinement claims about the
brand-string classification, C8) -/

/-- Case-sensitive variant of the `Apple M<N>` scan, used to state claim
C8's chain literally as worded (pattern `Apple M<N>`, no `/i` flag). -/
def matchAppleMNumExact : List Char → Option Nat
  | [] => none
  | b :: bs =>
    if startsWithL ("Apple M".toList) (b :: bs) then
      let ds := ((b :: bs).drop 7).takeWhile Char.isDigit
      if ds.isEmpty then matchAppleMNumExact bs else some (digitsToNat ds)
    else matchAppleMNumExact bs

/-- Modelled from the words of claim C8 (and spec section 4.1), read
literally with case-sensitive matching: contains `Intel` → `intel`;
otherwise pattern `Apple M<N>` → `m1` for N = 1 and `m2_or_later` for
N ≥ 2 (the claim leaves N = 0 unspecified; the code's `< 2 → m1` is used
there); otherwise contains `Apple` → `m2_or_later`; otherwise `unknown`. -/
def specSiliconChainExact (s : String) : AppleSiliconGen :=
  if strContains "Intel" s then .intel
  else
    match matchAppleMNumExact s.toList with
    | some n => if n = 1 then .m1 else if n ≥ 2 then .m2OrLater else .m1
    | none => if strContains "Apple" s then .m2OrLater else .unknown

/-- The same chain with all matching made case-insensitive (the minimal
amendment under which the chain describes the code, whose checks use
`toLowerCase().includes(...)` and the `/i` regex flag). -/
def specSiliconChainCI (s : String) : AppleSiliconGen :=
  if containsL ("intel".toList) (lowerL s.toList) then .intel
  else
    match matchAppleMNum s.toList with
    | some n => if n = 1 then .m1 else if n ≥ 2 then .m2OrLater else .m1
    | none =>
      if containsL ("apple".toList) (lowerL s.toList) then .m2OrLater
      else .unknown

/-! ## Helper lemmas on the substring scan -/

theorem startsWithL_self_append (n post : List Char) :
    startsWithL n (n ++ post) = true := by
  induction n with
  | nil => rfl
  | cons a as ih => simp [startsWithL, ih]

theorem containsL_of_startsWithL {n l : List Char} (h : startsWithL n l = true) :
    containsL n l = true := by
  cases l with
  | nil => simpa [containsL] using h
  | cons b bs => simp [containsL, h]

theorem containsL_append_left (pre n post : List Char) :
    containsL n (pre ++ (n ++ post)) = true := by
  induction pre with
  | nil => exact containsL_of_startsWithL (startsWithL_self_append n post)
  | cons b bs ih => simp [containsL, ih]

theorem beq_darwin_win32 : (("darwin" : String) == "win32") = false := by decide

theorem beq_darwin_darwin : (("darwin" : String) == "darwin") = true := by decide

theorem beq_win32_win32 : (("win32" : String) == "win32") = true := by decide

/-- On a darwin host, `detectPlatform` fills the record from the chip
generation detection. -/
theorem detectPlatform_darwin (env : HostEnv) (hos : env.osName = "darwin") :
    detectPlatform env =
      { os := .darwin
        isWin32 := false
        appleChipGen := detectAppleSiliconGeneration env
        isAppleSilicon := detectAppleSiliconGeneration env != .intel
        m1ddcSupportsBuiltinHdmi := detectAppleSiliconGeneration env == .m2OrLater } := by
  obtain ⟨os, brand⟩ := env
  simp only at hos
  subst hos
  simp [detectPlatform, beq_darwin_win32, beq_darwin_darwin, detectAppleSiliconGeneration]

/-- Every branch of `validateHostPlatform` keeps the detected platform
record unchanged. -/
theorem validateHostPlatform_info (env : HostEnv) :
    (validateHostPlatform env).info = detectPlatform env := by
  simp only [validateHostPlatform]
  repeat' split
  all_goals rfl

/-- On a darwin host the platform-stage toast is determined by the chip
generation alone: Intel blocks, M1 soft-fails, anything else succeeds. -/
theorem validateHostPlatform_darwin_toast (env : HostEnv) (hos : env.osName = "darwin") :
    (validateHostPlatform env).toast =
      (match detectAppleSiliconGeneration env with
       | .intel =>
          { status := .failure
            title := "m1ddc requires Apple Silicon (M1 or later)"
            message := "M1 is partially supported, Intel Macs are not supported." }
       | .m1 =>
          { status := .softFail
            title := "m1ddc does not support M1's built-in HDMI port!"
            message := "External displays via USB-C/Thunderbolt adapters should work." }
       | _ => GenericSuccess) := by
  have hd := detectPlatform_darwin env hos
  unfold validateHostPlatform
  rw [hd]
  cases detectAppleSiliconGeneration env <;> rfl

/-! ## Claim C1 -/

/-- Claim C1, counterexample: with monitor identifier `Primary` and input
value 17 the Windows command line built by `switchInputWindows` does not
contain `/SetValue "Primary" 96 17`; the VCP code the code places on the
command line is `60` (`VCP_INPUT_SOURCE`), not decimal 96. -/
theorem c1_counterexample :
    strContains "/SetValue \"Primary\" 96 17"
      (switchInputWindowsCommand "C:\\Tools\\ControlMyMonitor.exe" "Primary" 17) = false
    ∧ switchInputWindowsCommand "C:\\Tools\\ControlMyMonitor.exe" "Primary" 17
      = "\"C:\\Tools\\ControlMyMonitor.exe\" /SetValue \"Primary\" 60 17" :=
  ⟨by decide, by decide⟩

/-- Claim C1 as amended: for every executable path, monitor identifier m
and input value v, the Windows dispatch command line contains
`/SetValue "m" 60 v` — the VCP code placed on the command line is the
two digits `60` (hex 0x60 written as its digits) — and every macOS
dispatch command line contains `set input v` (so with v = 15 it contains
`set input 15`). -/
theorem c1_switch_command_lines (exePath monitorId : String) (v : Int) :
    strContains ("/SetValue \"" ++ monitorId ++ "\" 60 " ++ toString v)
      (switchInputWindowsCommand exePath monitorId v) = true
    ∧ strContains ("set input " ++ toString v) (switchInputMacOSCommand v) = true := by
  constructor
  · have h60 : (toString (60 : Nat)).data = ['6', '0'] := rfl
    have h : (switchInputWindowsCommand exePath monitorId v).toList
        = ('"' :: exePath.toList ++ ['"', ' ']) ++
          (("/SetValue \"" ++ monitorId ++ "\" 60 " ++ toString v).toList ++ []) := by
      simp [switchInputWindowsCommand, VCP_INPUT_SOURCE, String.toList,
        String.data_append, h60]
    unfold strContains
    rw [h]
    exact containsL_append_left _ _ _
  · have hm : ("m1ddc set input " : String).data
        = ("m1ddc " : String).data ++ ("set input " : String).data := rfl
    have h : (switchInputMacOSCommand v).toList
        = ("m1ddc ".toList) ++ (("set input " ++ toString v).toList ++ []) := by
      simp [switchInputMacOSCommand, String.toList, String.data_append, hm]
    unfold strContains
    rw [h]
    exact containsL_append_left _ _ _

/-! ## Claim C8 -/

/-- Claim C8, counterexample: on the brand string `INTEL` the chain as the
claim words it (case-sensitive matching) yields `unknown`, but the code's
parse (which lower-cases before testing) yields `intel`. -/
theorem c8_counterexample :
    detectAppleSiliconGeneration ⟨"darwin", some "INTEL"⟩ = .intel
    ∧ specSiliconChainExact "INTEL" = .unknown :=
  ⟨by decide, by decide⟩

/-- The code's brand-string parse agrees with the claim's chain once all
matching is made case-insensitive. -/
theorem parseBrandString_eq_specCI (s : String) :
    parseBrandString s = specSiliconChainCI s := by
  unfold parseBrandString specSiliconChainCI
  refine if_congr Iff.rfl rfl ?_
  cases matchAppleMNum s.toList with
  | none => rfl
  | some n =>
    by_cases hn1 : n = 1
    · subst hn1; simp
    · simp [hn1]

/-- Claim C8 as amended: for every brand string the utility returns on
macOS, the code's classification follows the claim's chain with the
matching read case-insensitively (contains `intel` → Intel; else first
`apple m<N>` pattern match → M1 when N = 1, M2OrLater when N ≥ 2; else
contains `apple` → M2OrLater; else Unknown), and
`m1ddcSupportsBuiltinHdmi` is true exactly when the generation is
`m2_or_later`. -/
theorem c8_brand_classification (env : HostEnv) (s : String)
    (hs : env.sysctlBrand = some s) (hos : env.osName = "darwin") :
    detectAppleSiliconGeneration env = specSiliconChainCI (String.mk (trimL s.toList))
    ∧ ((detectPlatform env).m1ddcSupportsBuiltinHdmi = true
        ↔ (detectPlatform env).appleChipGen = .m2OrLater) := by
  obtain ⟨os, brand⟩ := env
  simp only at hs hos
  subst hs hos
  constructor
  · simp [detectAppleSiliconGeneration, parseBrandString_eq_specCI]
  · have hw : (("darwin" : String) == "win32") = false := by decide
    have hd : (("darwin" : String) == "darwin") = true := by decide
    simp [detectPlatform, hw, hd]

/-- Claim C8 witness: the amended theorem applied to a concrete host with
brand string `Apple M1`. -/
theorem c8_brand_classification_witness :
    (⟨"darwin", some "Apple M1"⟩ : HostEnv).sysctlBrand = some "Apple M1"
    ∧ (detectAppleSiliconGeneration ⟨"darwin", some "Apple M1"⟩
          = specSiliconChainCI (String.mk (trimL ("Apple M1" : String).toList))
        ∧ ((detectPlatform ⟨"darwin", some "Apple M1"⟩).m1ddcSupportsBuiltinHdmi = true
            ↔ (detectPlatform ⟨"darwin", some "Apple M1"⟩).appleChipGen = .m2OrLater)) :=
  ⟨rfl, c8_brand_classification ⟨"darwin", some "Apple M1"⟩ "Apple M1" rfl rfl⟩

/-! ## Claim C2 -/

/-- Claim C2, code-bug exhibit: with HDMI input code `abc` — which fails
integer parsing — and an otherwise valid Windows configuration, the
preference validation reports success (the numeric check's early `return`
escapes only the `forEach` callback and is discarded, despite the
source's own comment "Fail if DisplayPort value or HDMI value are non
numbers"), and the toggle-input-source command therefore proceeds to
dispatch instead of stopping with a blocking failure. -/
theorem c2_code_bug_exhibit :
    jsParseInt "abc" = none
    ∧ (validatePreferences (fun _ => true) (detectPlatform ⟨"win32", none⟩)
        ⟨"15", "abc", "", "C:\\Tools\\ControlMyMonitor.exe", "Primary"⟩).toast.status
      = .success
    ∧ toggleCommandRunsDispatch ⟨"win32", none⟩ (fun _ => true)
        ⟨"15", "abc", "", "C:\\Tools\\ControlMyMonitor.exe", "Primary"⟩ = true :=
  ⟨by decide, by decide, by decide⟩

/-! ## Claim C3 -/

/-- Claim C3: on a darwin host with an M1 chip and the tool present (a
non-blank configured m1ddc path that exists on disk), the platform
validation returns the soft warning (status `soft-fail`, not a blocking
failure), and the toggle-input-source command still proceeds to call
`switchInput` afterwards. -/
theorem c3_m1_soft_warning (env : HostEnv) (existsSync : String → Bool)
    (prefs : Preferences)
    (hos : env.osName = "darwin")
    (hgen : detectAppleSiliconGeneration env = .m1)
    (hblank : ¬(prefs.m1ddcPath = "" ∨ String.mk (trimL prefs.m1ddcPath.toList) = ""))
    (hexists : existsSync prefs.m1ddcPath = true) :
    (validateHostPlatform env).toast.status = .softFail
    ∧ toggleCommandRunsDispatch env existsSync prefs = true := by
  have htoast : (validateHostPlatform env).toast
      = { status := .softFail
          title := "m1ddc does not support M1's built-in HDMI port!"
          message := "External displays via USB-C/Thunderbolt adapters should work." } := by
    rw [validateHostPlatform_darwin_toast env hos, hgen]
  have hinfo := validateHostPlatform_info env
  have hos' : (detectPlatform env).os = .darwin := by
    rw [detectPlatform_darwin env hos]
  constructor
  · rw [htoast]
  · simp only [toggleCommandRunsDispatch, validatePrerequisites, htoast, hinfo]
    simp only [validatePreferences, hos']
    have h2 : String.mk (trimL prefs.m1ddcPath.data) ≠ "" := fun h => hblank (Or.inr h)
    simp [(not_or.mp hblank).1, h2, hexists, GenericSuccess, PrereqResult.status]

/-- Claim C3 witness: a concrete M1 darwin host with the tool installed. -/
theorem c3_m1_soft_warning_witness :
    detectAppleSiliconGeneration ⟨"darwin", some "Apple M1"⟩ = .m1
    ∧ ((validateHostPlatform ⟨"darwin", some "Apple M1"⟩).toast.status = .softFail
        ∧ toggleCommandRunsDispatch ⟨"darwin", some "Apple M1"⟩ (fun _ => true)
            ⟨"15", "17", "/opt/homebrew/bin/m1ddc", "", "Primary"⟩ = true) :=
  ⟨by decide,
   c3_m1_soft_warning ⟨"darwin", some "Apple M1"⟩ (fun _ => true)
     ⟨"15", "17", "/opt/homebrew/bin/m1ddc", "", "Primary"⟩
     rfl (by decide) (by decide) rfl⟩

/-! ## Claim C7 -/

/-- Claim C7: chip classification never fails — a thrown or timed-out
utility invocation (modelled by `sysctlBrand = none`) and unparseable
output (no case-insensitive `intel`, no `/Apple M(\d+)/i` match, no
case-insensitive `apple`) both classify as `unknown`; `detectPlatform`
always returns a `PlatformInfo` value built from that result. -/
theorem c7_classification_never_fails (env : HostEnv) :
    (env.sysctlBrand = none → detectAppleSiliconGeneration env = .unknown)
    ∧ (∀ s, env.sysctlBrand = some s →
        containsL ("intel".toList) (lowerL (trimL s.toList)) = false →
        matchAppleMNum (trimL s.toList) = none →
        containsL ("apple".toList) (lowerL (trimL s.toList)) = false →
        detectAppleSiliconGeneration env = .unknown) := by
  constructor
  · intro h
    unfold detectAppleSiliconGeneration
    rw [h]
  · intro s hs h1 h2 h3
    unfold detectAppleSiliconGeneration
    rw [hs]
    unfold parseBrandString
    simp only [String.toList] at *
    simp [h1, h2, h3]

/-- Claim C7 witness: a failed utility call and an unparseable brand
string both yield `unknown`. -/
theorem c7_classification_never_fails_witness :
    detectAppleSiliconGeneration ⟨"darwin", none⟩ = .unknown
    ∧ detectAppleSiliconGeneration ⟨"darwin", some "Cortex A76"⟩ = .unknown :=
  ⟨(c7_classification_never_fails ⟨"darwin", none⟩).1 rfl,
   (c7_classification_never_fails ⟨"darwin", some "Cortex A76"⟩).2 "Cortex A76" rfl
     (by decide) (by decide) (by decide)⟩

/-! ## Claim C9 -/

/-- Claim C9: on an M1 darwin host whose preference validation succeeds,
the spread-merge in `validatePrerequisites` overwrites the platform
stage's soft-warning toast with the preference stage's success toast, so
the combined validation observed by the caller has status `success` and
the soft warning is never seen. -/
theorem c9_merge_overwrites_soft_warning (env : HostEnv)
    (existsSync : String → Bool) (prefs : Preferences)
    (hos : env.osName = "darwin")
    (hgen : detectAppleSiliconGeneration env = .m1)
    (hpref : (validatePreferences existsSync (detectPlatform env) prefs).toast.status
      = .success) :
    (validateHostPlatform env).toast.status = .softFail
    ∧ (validatePrerequisites env existsSync prefs).status = .success := by
  have htoast : (validateHostPlatform env).toast
      = { status := .softFail
          title := "m1ddc does not support M1's built-in HDMI port!"
          message := "External displays via USB-C/Thunderbolt adapters should work." } := by
    rw [validateHostPlatform_darwin_toast env hos, hgen]
  have hinfo := validateHostPlatform_info env
  constructor
  · rw [htoast]
  · simp only [validatePrerequisites, htoast, hinfo]
    simpa [PrereqResult.status] using hpref

/-- Claim C9 witness: a concrete M1 darwin host with a valid
configuration; the platform soft warning is overwritten by success. -/
theorem c9_merge_overwrites_soft_warning_witness :
    (validatePreferences (fun _ => true)
        (detectPlatform ⟨"darwin", some "Apple M1"⟩)
        ⟨"15", "17", "/opt/homebrew/bin/m1ddc", "", "Primary"⟩).toast.status = .success
    ∧ ((validateHostPlatform ⟨"darwin", some "Apple M1"⟩).toast.status = .softFail
        ∧ (validatePrerequisites ⟨"darwin", some "Apple M1"⟩ (fun _ => true)
            ⟨"15", "17", "/opt/homebrew/bin/m1ddc", "", "Primary"⟩).status = .success) :=
  ⟨by decide,
   c9_merge_overwrites_soft_warning ⟨"darwin", some "Apple M1"⟩ (fun _ => true)
     ⟨"15", "17", "/opt/homebrew/bin/m1ddc", "", "Primary"⟩
     rfl (by decide) (by decide)⟩

/-! ## Claim C10 -/

/-- Claim C10: on a darwin host, `isAppleSilicon` is defined as
`appleChipGen ≠ intel` (so an `unknown` generation counts as Apple
Silicon), the platform validation blocks (status `failure`) exactly when
the generation is `intel`, and with generation `unknown` it returns
status `success`, letting dispatch proceed. -/
theorem c10_unknown_counts_as_apple_silicon (env : HostEnv)
    (hos : env.osName = "darwin") :
    ((detectPlatform env).isAppleSilicon = true
      ↔ (detectPlatform env).appleChipGen ≠ .intel)
    ∧ ((validateHostPlatform env).toast.status = .failure
      ↔ (detectPlatform env).appleChipGen = .intel)
    ∧ ((detectPlatform env).appleChipGen = .unknown
      → (validateHostPlatform env).toast.status = .success) := by
  have hd := detectPlatform_darwin env hos
  have htoast := validateHostPlatform_darwin_toast env hos
  refine ⟨?_, ?_, ?_⟩
  · rw [hd]
    cases detectAppleSiliconGeneration env <;> simp
  · rw [htoast, hd]
    cases detectAppleSiliconGeneration env <;> simp [GenericSuccess]
  · intro hu
    rw [hd] at hu
    simp only at hu
    rw [htoast, hu]
    rfl

/-- Claim C10 witness: a darwin host whose chip classification failed
(`unknown` generation) is treated as Apple Silicon and validates with
status `success`. -/
theorem c10_unknown_counts_as_apple_silicon_witness :
    (⟨"darwin", none⟩ : HostEnv).osName = "darwin"
    ∧ (((detectPlatform ⟨"darwin", none⟩).isAppleSilicon = true
        ↔ (detectPlatform ⟨"darwin", none⟩).appleChipGen ≠ .intel)
      ∧ ((validateHostPlatform ⟨"darwin", none⟩).toast.status = .failure
        ↔ (detectPlatform ⟨"darwin", none⟩).appleChipGen = .intel)
      ∧ ((detectPlatform ⟨"darwin", none⟩).appleChipGen = .unknown
        → (validateHostPlatform ⟨"darwin", none⟩).toast.status = .success)) :=
  ⟨rfl, c10_unknown_counts_as_apple_silicon ⟨"darwin", none⟩ rfl⟩

/-! ## Claim C4 -/

/-- Claim C4: a dispatch result reports success exactly when the external
process exited with status 0 (the `execSync` call returned instead of
throwing); every thrown execution error — non-zero exit, spawn failure or
timeout — yields a failure result, on both platforms. -/
theorem c4_success_iff_exit_zero (exec : ExecEnv) (v : Int)
    (exePath monitorId : String) :
    ((switchInputMacOS exec v).success = true
      ↔ ∃ out, exec (switchInputMacOSCommand v) = .ok out)
    ∧ ((switchInputWindows exec v exePath monitorId).success = true
      ↔ ∃ out, exec (switchInputWindowsCommand exePath monitorId v) = .ok out) := by
  constructor
  · cases h : exec (switchInputMacOSCommand v) with
    | ok out =>
      have hs : (switchInputMacOS exec v).success = true := by
        simp only [switchInputMacOS, h]
      simp [hs, h]
    | err m =>
      have hs : (switchInputMacOS exec v).success = false := by
        simp only [switchInputMacOS, h]
        repeat' split
        all_goals rfl
      simp [hs, h]
  · cases h : exec (switchInputWindowsCommand exePath monitorId v) with
    | ok out =>
      have hs : (switchInputWindows exec v exePath monitorId).success = true := by
        simp only [switchInputWindows, h]
      simp [hs, h]
    | err m =>
      have hs : (switchInputWindows exec v exePath monitorId).success = false := by
        simp only [switchInputWindows, h]
      simp [hs, h]

/-! ## Claim C5 -/

/-- Claim C5, counterexample: a Windows dispatch whose process fails with
error text containing `DDC communication failed` does not get the
cable/DDC-setting guidance — `switchInputWindows` passes every error text
through raw — so the claim's "every dispatcher call" is false on the
Windows branch. -/
theorem c5_counterexample :
    strContains "DDC communication failed"
      "Command failed: DDC communication failed: timeout" = true
    ∧ (switchInputWindows
        (fun _ => .err "Command failed: DDC communication failed: timeout")
        17 "C:\\Tools\\ControlMyMonitor.exe" "Primary").message
      = "ControlMyMonitor error: Command failed: DDC communication failed: timeout"
    ∧ strContains "cable"
        (switchInputWindows
          (fun _ => .err "Command failed: DDC communication failed: timeout")
          17 "C:\\Tools\\ControlMyMonitor.exe" "Primary").message = false :=
  ⟨by decide, by decide, by decide⟩

/-- Claim C5 as amended: on the macOS dispatcher a thrown execution error
is mapped by substring matching — `No displays found` (checked first) to
the connectivity hint, else `DDC communication failed` to the
cable/DDC-setting hint, else the raw error text prefixed `m1ddc error:` —
while the Windows dispatcher always passes the raw error text through
prefixed `ControlMyMonitor error:`. -/
theorem c5_error_text_mapping (exec : ExecEnv) (v : Int)
    (exePath monitorId e : String) :
    (exec (switchInputMacOSCommand v) = .err e →
      ((strContains "No displays found" e = true →
          (switchInputMacOS exec v).success = false
          ∧ (switchInputMacOS exec v).message
            = "No DDC/CI compatible displays found. Is the monitor connected and awake?")
       ∧ (strContains "No displays found" e = false →
          strContains "DDC communication failed" e = true →
          (switchInputMacOS exec v).success = false
          ∧ (switchInputMacOS exec v).message
            = "DDC/CI communication failed. Try a different cable or check monitor DDC settings.")
       ∧ (strContains "No displays found" e = false →
          strContains "DDC communication failed" e = false →
          (switchInputMacOS exec v).success = false
          ∧ (switchInputMacOS exec v).message = "m1ddc error: " ++ e)))
    ∧ (exec (switchInputWindowsCommand exePath monitorId v) = .err e →
        (switchInputWindows exec v exePath monitorId).success = false
        ∧ (switchInputWindows exec v exePath monitorId).message
          = "ControlMyMonitor error: " ++ e) := by
  constructor
  · intro h
    refine ⟨?_, ?_, ?_⟩
    · intro h1
      simp [switchInputMacOS, h, h1]
    · intro h1 h2
      simp [switchInputMacOS, h, h1, h2]
    · intro h1 h2
      simp [switchInputMacOS, h, h1, h2]
  · intro h
    simp [switchInputWindows, h]

/-- Claim C5 witness: concrete macOS dispatch failing with
`DDC communication failed: timeout` produces the cable/DDC-setting hint. -/
theorem c5_error_text_mapping_witness :
    strContains "DDC communication failed" "DDC communication failed: timeout" = true
    ∧ (switchInputMacOS
        (fun _ => ExecOutcome.err "DDC communication failed: timeout") 15).message
      = "DDC/CI communication failed. Try a different cable or check monitor DDC settings." :=
  ⟨by decide,
   (((c5_error_text_mapping
        (fun _ => ExecOutcome.err "DDC communication failed: timeout") 15
        "C:\\x.exe" "Primary" "DDC communication failed: timeout").1 rfl).2.1
      (by decide) (by decide)).2⟩

/-! ## Claim C6 -/

/-- Claim C6: when only the secondary discovery query fails the report is
still successful — on macOS a failed `display list` call degrades to the
placeholder string inside the report, and an unparseable current value
leaves `currentValue` unset; on Windows a failed or unparseable
`/GetValue` call leaves `currentValue` unset — with `success = true`
throughout. -/
theorem c6_secondary_query_failure_tolerated (exec : ExecEnv)
    (exePath monitorId s : String) :
    (exec "m1ddc get input" = .ok s →
      (discoverInputsMacOS exec).success = true
      ∧ (jsParseInt (String.mk (trimL s.toList)) = none →
          (discoverInputsMacOS exec).currentValue = none)
      ∧ (∀ e, exec "m1ddc display list" = .err e →
          (discoverInputsMacOS exec).availableInfo
            = some (macDiscoveryInfo (jsParseInt (String.mk (trimL s.toList)))
                "(Could not retrieve display list)")))
    ∧ (∀ out, exec (smonitorsCommand exePath) = .ok out →
        (discoverInputsWindows exec exePath monitorId).success = true
        ∧ (∀ e, exec (getValueCommand exePath monitorId) = .err e →
            (discoverInputsWindows exec exePath monitorId).currentValue = none)
        ∧ (∀ g, exec (getValueCommand exePath monitorId) = .ok g →
            jsParseInt (String.mk (trimL g.toList)) = none →
            (discoverInputsWindows exec exePath monitorId).currentValue = none)) := by
  constructor
  · intro h
    refine ⟨?_, ?_, ?_⟩
    · simp only [discoverInputsMacOS, h]
    · intro hnan
      simp only [discoverInputsMacOS, h]
      simpa using hnan
    · intro e he
      simp only [discoverInputsMacOS, h, he]
  · intro out h
    refine ⟨?_, ?_, ?_⟩
    · simp only [discoverInputsWindows, h]
    · intro e he
      simp only [discoverInputsWindows, h, he]
    · intro g hg hnan
      simp only [discoverInputsWindows, h, hg]
      simpa using hnan

/-- Claim C6 witness: a host where the primary discovery queries succeed
(with an unparseable current value) and the secondary queries throw. -/
theorem c6_secondary_query_failure_tolerated_witness :
    (fun c => if c == "m1ddc get input" then ExecOutcome.ok "nope"
              else ExecOutcome.err "boom" : ExecEnv) "m1ddc get input"
      = ExecOutcome.ok "nope"
    ∧ ((discoverInputsMacOS
          (fun c => if c == "m1ddc get input" then ExecOutcome.ok "nope"
                    else ExecOutcome.err "boom")).success = true
      ∧ (jsParseInt (String.mk (trimL ("nope" : String).toList)) = none →
          (discoverInputsMacOS
            (fun c => if c == "m1ddc get input" then ExecOutcome.ok "nope"
                      else ExecOutcome.err "boom")).currentValue = none)
      ∧ (∀ e, (fun c => if c == "m1ddc get input" then ExecOutcome.ok "nope"
                        else ExecOutcome.err "boom" : ExecEnv) "m1ddc display list"
            = ExecOutcome.err e →
          (discoverInputsMacOS
            (fun c => if c == "m1ddc get input" then ExecOutcome.ok "nope"
                      else ExecOutcome.err "boom")).availableInfo
            = some (macDiscoveryInfo
                (jsParseInt (String.mk (trimL ("nope" : String).toList)))
                "(Could not retrieve display list)"))) :=
  ⟨by decide,
   ((c6_secondary_query_failure_tolerated
      (fun c => if c == "m1ddc get input" then ExecOutcome.ok "nope"
                else ExecOutcome.err "boom")
      "C:\\x.exe" "Primary" "nope").1 (by decide))⟩

end MIS
